import Mathlib

/-!
Verification development for the QuickGo delivery-marketplace repository.

The definitions below are shallow embeddings of the client-side code:
  * the cart state and its operations, from
    src/mobile-customer/src/context/CartContext.tsx;
  * the checkout money computation and order-placement validation, from
    src/mobile-customer/src/screens/Cart/CheckoutScreen.tsx;
  * the add-to-cart handler of the menu screen (src/unnamed/part_005,
    MenuScreen.tsx);
  * the driver availability/online toggles, from
    src/mobile-driver/src/screens/main/HomeScreen.tsx.

JavaScript numbers are modelled as Rat (money) and Int (ids, quantities);
JSON.stringify equality on customization arrays is modelled as structural
equality of lists; null/undefined become Option.

The backend order state machine (can_be_cancelled, cancel, transition) is
not part of the provided source — the mobile clients only call it over
HTTP (src/mobile-customer/src/api/orders.ts) — so it is modelled from the
specification, as marked on each of those definitions.
-/

namespace QuickGo

/-! ### Cart data model (CartContext.tsx / api/orders.ts) -/

/-- An entry of `selected_extras` on an OrderItem (src/api/orders.ts). -/
structure SelectedExtra where
  id : Int
  name : String
  price : Rat
  quantity : Int
  deriving Repr, DecidableEq

/-- An entry of `selected_options` on an OrderItem (src/api/orders.ts). -/
structure SelectedOption where
  group_id : Int
  option_id : Int
  price_modifier : Rat
  deriving Repr, DecidableEq

/-- A cart line item: OrderItem extended with product display data and
unit price (CartContext.tsx, `CartItem`). -/
structure CartItem where
  product_id : Int
  product_name : String
  product_description : String
  product_image : String
  unit_price : Rat
  quantity : Int
  selected_extras : List SelectedExtra
  selected_options : List SelectedOption
  special_notes : String
  deriving Repr, DecidableEq

/-- The state held by the CartProvider: the item list and the restaurant
binding (`restaurantId` / `restaurantName`, null when no restaurant). -/
structure CartState where
  cart : List CartItem
  restaurantId : Option Int
  restaurantName : Option String
  deriving Repr, DecidableEq

/-- The initial provider state: empty cart, no restaurant bound. -/
def initialCartState : CartState :=
  { cart := [], restaurantId := none, restaurantName := none }

/-- The duplicate test used by `addToCart`'s findIndex: same product and
same customizations (extras, chosen options, special notes).
JSON.stringify equality becomes structural equality. -/
def sameCartEntry (cartItem item : CartItem) : Bool :=
  decide (cartItem.product_id = item.product_id)
    && decide (cartItem.selected_extras = item.selected_extras)
    && decide (cartItem.selected_options = item.selected_options)
    && decide (cartItem.special_notes = item.special_notes)

/-- In-place quantity increment at an index, mirroring
`updatedCart[existingItemIndex].quantity += item.quantity`. -/
def bumpQuantityAt : List CartItem → Nat → Int → List CartItem
  | [], _, _ => []
  | x :: xs, 0, q => { x with quantity := x.quantity + q } :: xs
  | x :: xs, n + 1, q => x :: bumpQuantityAt xs n q

/-- `addToCart(item, newRestaurantId, newRestaurantName)` from
CartContext.tsx: a cart bound to a different restaurant is replaced by the
single new item; otherwise a matching entry (same product and
customizations) has its quantity incremented, or the item is appended. In
all branches the restaurant binding is set to the new restaurant. -/
def addToCart (s : CartState) (item : CartItem)
    (newRestaurantId : Int) (newRestaurantName : String) : CartState :=
  if s.restaurantId.isSome && s.restaurantId ≠ some newRestaurantId then
    { cart := [item], restaurantId := some newRestaurantId,
      restaurantName := some newRestaurantName }
  else
    match s.cart.findIdx? (fun cartItem => sameCartEntry cartItem item) with
    | some i =>
        { cart := bumpQuantityAt s.cart i item.quantity,
          restaurantId := some newRestaurantId,
          restaurantName := some newRestaurantName }
    | none =>
        { cart := s.cart ++ [item],
          restaurantId := some newRestaurantId,
          restaurantName := some newRestaurantName }

/-- `removeFromCart(productId)`: filters out every entry with that
product id; when the cart becomes empty the restaurant binding is
cleared. -/
def removeFromCart (s : CartState) (productId : Int) : CartState :=
  let updatedCart := s.cart.filter (fun item => decide (item.product_id ≠ productId))
  if updatedCart.isEmpty then
    { cart := updatedCart, restaurantId := none, restaurantName := none }
  else
    { s with cart := updatedCart }

/-- `updateQuantity(productId, quantity)`: with quantity ≤ 0 delegates to
`removeFromCart`; otherwise sets the quantity of every entry with that
product id. -/
def updateQuantity (s : CartState) (productId : Int) (quantity : Int) : CartState :=
  if quantity ≤ 0 then
    removeFromCart s productId
  else
    { s with cart := s.cart.map (fun item =>
        if item.product_id = productId then { item with quantity := quantity } else item) }

/-- `clearCart()`: empties the cart and clears the restaurant binding. -/
def clearCart (_s : CartState) : CartState :=
  { cart := [], restaurantId := none, restaurantName := none }

/-- `getCartItemsCount()`: `cart.reduce((count, item) => count + item.quantity, 0)`. -/
def getCartItemsCount (s : CartState) : Int :=
  s.cart.foldl (fun count item => count + item.quantity) 0

/-! ### Checkout money computation (CheckoutScreen.tsx, lines 28-33) -/

/-- The flat delivery fee used by the checkout screen. -/
def deliveryFee : Rat := 25 / 10

/-- The flat service fee used by the checkout screen. -/
def serviceFee : Rat := 5 / 10

/-- `const tax = subtotal * 0.12` (12% IVA). -/
def checkoutTax (subtotal : Rat) : Rat := subtotal * (12 / 100)

/-- `const total = subtotal + deliveryFee + serviceFee + tax + tip`. -/
def checkoutTotal (subtotal tip : Rat) : Rat :=
  subtotal + deliveryFee + serviceFee + checkoutTax subtotal + tip

/-! ### Order placement validation (CheckoutScreen.tsx, handlePlaceOrder) -/

/-- The state of the checkout screen that `handlePlaceOrder` reads: the
cart provider state plus the delivery address field. -/
structure CheckoutState where
  cartState : CartState
  deliveryAddress : String
  tip : Rat
  deriving Repr, DecidableEq

/-- Outcome of one `handlePlaceOrder` invocation: whether
`orderAPI.create` was called, and the resulting screen/cart state. -/
structure PlaceOrderOutcome where
  createCalled : Bool
  after : CheckoutState
  deriving Repr, DecidableEq

/-- `handlePlaceOrder` from CheckoutScreen.tsx: it returns without calling
`orderAPI.create` when the trimmed delivery address is empty, the cart's
restaurant id is null, or the cart is empty; otherwise it calls the API
and, on success (`apiOk`), clears the cart. -/
def handlePlaceOrder (s : CheckoutState) (apiOk : Bool) : PlaceOrderOutcome :=
  if s.deliveryAddress.trim = "" then
    { createCalled := false, after := s }
  else if s.cartState.restaurantId = none then
    { createCalled := false, after := s }
  else if s.cartState.cart.isEmpty then
    { createCalled := false, after := s }
  else if apiOk then
    { createCalled := true, after := { s with cartState := clearCart s.cartState } }
  else
    { createCalled := true, after := s }

/-! ### Menu screen add-to-cart handler (src/unnamed/part_005, MenuScreen.tsx) -/

/-- A product of the restaurant menu (MenuScreen.tsx, `Product`). -/
structure Product where
  id : Int
  name : String
  description : String
  price : Rat
  image : String
  category : String
  is_available : Bool
  deriving Repr, DecidableEq

/-- `addItemToCart`'s cart item built from a product: quantity 1, no
extras, no chosen options, empty notes. -/
def productToCartItem (p : Product) : CartItem :=
  { product_id := p.id, product_name := p.name,
    product_description := p.description, product_image := p.image,
    unit_price := p.price, quantity := 1,
    selected_extras := [], selected_options := [], special_notes := "" }

/-- `handleAddToCart(product)` from MenuScreen.tsx: an unavailable
product is rejected outright; when the cart belongs to another
restaurant, the user is asked to confirm clearing it (`confirmClear`
models the alert choice); otherwise the item is added. -/
def handleAddToCart (s : CartState) (p : Product)
    (restaurantId : Int) (restaurantName : String) (confirmClear : Bool) : CartState :=
  if !p.is_available then
    s
  else if s.restaurantId.isSome && s.restaurantId ≠ some restaurantId then
    if confirmClear then addToCart s (productToCartItem p) restaurantId restaurantName
    else s
  else
    addToCart s (productToCartItem p) restaurantId restaurantName

/-! ### Driver availability toggles (mobile-driver HomeScreen.tsx) -/

/-- The availability state held by the driver home screen. -/
structure DriverUIState where
  isAvailable : Bool
  isOnline : Bool
  deriving Repr, DecidableEq

/-- `handleToggleAvailability(value)`: on API success sets
`isAvailable := value` and, when `value` is false, also forces
`isOnline := false`; on API failure the state is unchanged. -/
def handleToggleAvailability (s : DriverUIState) (value : Bool) (apiOk : Bool) : DriverUIState :=
  if apiOk then
    { isAvailable := value, isOnline := if value then s.isOnline else false }
  else
    s

/-- `handleToggleOnline(value)`: rejects `value = true` when the driver is
not available (early return, state unchanged); otherwise on API success
sets `isOnline := value`. -/
def handleToggleOnline (s : DriverUIState) (value : Bool) (apiOk : Bool) : DriverUIState :=
  if !s.isAvailable && value then
    s
  else if apiOk then
    { s with isOnline := value }
  else
    s

/-- The driver availability invariant: `is_online` only when
`is_available`. -/
def driverInv (s : DriverUIState) : Prop :=
  s.isOnline = true → s.isAvailable = true

instance (s : DriverUIState) : Decidable (driverInv s) := by
  unfold driverInv; infer_instance

/-! ### Order state machine

Modelled from the spec: the backend implementation of the order lifecycle
(the `transition`, `cancel` and `can_be_cancelled` logic of §4.1) is not
among the provided sources — the clients only call it over HTTP
(src/mobile-customer/src/api/orders.ts) — so the definitions of this
section follow the specification text. -/

/-- Modelled from the spec: the closed order status enum of §4.1 (the
client code carries these as string literals in `Order.status`). -/
inductive OrderStatus where
  | PENDING | CONFIRMED | PREPARING | READY
  | PICKED_UP | IN_TRANSIT | DELIVERED | CANCELLED
  deriving Repr, DecidableEq

/-- Modelled from the spec: the cancellation reason enum, as enumerated
in `orderAPI.cancel`'s argument type (src/mobile-customer/src/api/orders.ts). -/
inductive CancellationReason where
  | CUSTOMER_REQUEST | RESTAURANT_UNAVAILABLE | DRIVER_UNAVAILABLE
  | PAYMENT_FAILED | WRONG_ORDER | LONG_WAIT | OTHER
  deriving Repr, DecidableEq

/-- Modelled from the spec: the recoverable error taxonomy of §7 that the
order operations report. -/
inductive OrderError where
  | ValidationError | InvalidTransition | NotCancellable
  deriving Repr, DecidableEq

/-- Modelled from the spec: the order fields the state machine touches —
status, the per-transition timestamps (each nullable, set when that
transition occurs) and the cancellation data. -/
structure MOrder where
  status : OrderStatus
  confirmed_at : Option Nat
  preparing_at : Option Nat
  ready_at : Option Nat
  picked_up_at : Option Nat
  delivered_at : Option Nat
  cancelled_at : Option Nat
  in_transit_at : Option Nat
  cancellation_reason : Option CancellationReason
  cancellation_notes : String
  deriving Repr, DecidableEq

/-- Modelled from the spec: `can_be_cancelled` is true iff the status is
PENDING or CONFIRMED (§3, derived/read-only fields; surfaced to the
client as `Order.can_be_cancelled` in src/mobile-customer/src/api/orders.ts). -/
def canBeCancelled (st : OrderStatus) : Bool :=
  decide (st = .PENDING) || decide (st = .CONFIRMED)

/-- Modelled from the spec: the directed edge list of the status graph —
the linear happy path PENDING → CONFIRMED → PREPARING → READY →
PICKED_UP → IN_TRANSIT → DELIVERED, with CANCELLED reachable from
PENDING or CONFIRMED only (§4.1). -/
def allowedEdge : OrderStatus → OrderStatus → Bool
  | .PENDING, .CONFIRMED => true
  | .CONFIRMED, .PREPARING => true
  | .PREPARING, .READY => true
  | .READY, .PICKED_UP => true
  | .PICKED_UP, .IN_TRANSIT => true
  | .IN_TRANSIT, .DELIVERED => true
  | .PENDING, .CANCELLED => true
  | .CONFIRMED, .CANCELLED => true
  | _, _ => false

/-- Modelled from the spec: entering a status stamps the corresponding
nullable timestamp field (§3: one timestamp per status transition). -/
def stampStatus (o : MOrder) (target : OrderStatus) (now : Nat) : MOrder :=
  match target with
  | .PENDING => o
  | .CONFIRMED => { o with confirmed_at := some now }
  | .PREPARING => { o with preparing_at := some now }
  | .READY => { o with ready_at := some now }
  | .PICKED_UP => { o with picked_up_at := some now }
  | .IN_TRANSIT => { o with in_transit_at := some now }
  | .DELIVERED => { o with delivered_at := some now }
  | .CANCELLED => { o with cancelled_at := some now }

/-- Modelled from the spec: `transition(orderId, targetStatus, ...)`
(§4.1). Re-applying the transition to an order already in the target
status is a no-op success with no dispatch; an edge in the status graph
is applied, stamping the timestamp and dispatching exactly when READY is
entered (the Bool component records whether `requestDispatch` ran); any
other edge is rejected with `InvalidTransition` and the order untouched. -/
def transition (o : MOrder) (target : OrderStatus) (now : Nat) :
    Except OrderError (MOrder × Bool) :=
  if o.status = target then
    .ok (o, false)
  else if allowedEdge o.status target then
    .ok ({ stampStatus o target now with status := target },
         decide (target = .READY))
  else
    .error .InvalidTransition

/-- Modelled from the spec: `cancel(orderId, reason, notes, actor)` —
sugar over `transition(..., CANCELLED, ...)` guarded by the
`can_be_cancelled` eligibility check, failing with `NotCancellable`
otherwise (§4.1). -/
def cancel (o : MOrder) (reason : CancellationReason) (notes : String)
    (now : Nat) : Except OrderError MOrder :=
  if canBeCancelled o.status then
    match transition o .CANCELLED now with
    | .ok (o2, _) =>
        .ok { o2 with cancellation_reason := some reason, cancellation_notes := notes }
    | .error e => .error e
  else
    .error .NotCancellable

/-! ### Cart operation traces and ghost provenance tags

The UI issues the four cart operations of CartContext.tsx. To express
"every item of a bound cart was added under the currently bound
restaurant", each operation is mirrored on a ghost-tagged state in which
every cart entry carries the restaurant id that was passed to the
`addToCart` call that inserted it; erasing the tags recovers the real
operations exactly. -/

/-- One cart operation of the CartContext interface. -/
inductive CartOp where
  | add (item : CartItem) (rid : Int) (rname : String)
  | remove (pid : Int)
  | update (pid : Int) (q : Int)
  | clear
  deriving Repr

/-- Apply one cart operation. -/
def applyOp (s : CartState) : CartOp → CartState
  | .add item rid rname => addToCart s item rid rname
  | .remove pid => removeFromCart s pid
  | .update pid q => updateQuantity s pid q
  | .clear => clearCart s

/-- Run a sequence of cart operations. -/
def runOps (s : CartState) (ops : List CartOp) : CartState :=
  ops.foldl applyOp s

/-- Cart state with ghost provenance tags: each entry is paired with the
restaurant id under which it was inserted. -/
structure TaggedCartState where
  items : List (CartItem × Int)
  restaurantId : Option Int
  restaurantName : Option String
  deriving Repr

/-- Forget the provenance tags. -/
def eraseTags (t : TaggedCartState) : CartState :=
  { cart := t.items.map Prod.fst, restaurantId := t.restaurantId,
    restaurantName := t.restaurantName }

/-- Tagged mirror of `bumpQuantityAt`: the existing entry keeps its tag. -/
def bumpQuantityAtTagged : List (CartItem × Int) → Nat → Int → List (CartItem × Int)
  | [], _, _ => []
  | x :: xs, 0, q => ({ x.1 with quantity := x.1.quantity + q }, x.2) :: xs
  | x :: xs, n + 1, q => x :: bumpQuantityAtTagged xs n q

/-- Tagged mirror of `addToCart`: a newly inserted entry is tagged with
the restaurant id passed to the call. -/
def addToCartTagged (t : TaggedCartState) (item : CartItem)
    (newRestaurantId : Int) (newRestaurantName : String) : TaggedCartState :=
  if t.restaurantId.isSome && t.restaurantId ≠ some newRestaurantId then
    { items := [(item, newRestaurantId)], restaurantId := some newRestaurantId,
      restaurantName := some newRestaurantName }
  else
    match (t.items.map Prod.fst).findIdx? (fun cartItem => sameCartEntry cartItem item) with
    | some i =>
        { items := bumpQuantityAtTagged t.items i item.quantity,
          restaurantId := some newRestaurantId,
          restaurantName := some newRestaurantName }
    | none =>
        { items := t.items ++ [(item, newRestaurantId)],
          restaurantId := some newRestaurantId,
          restaurantName := some newRestaurantName }

/-- Tagged mirror of `removeFromCart`. -/
def removeFromCartTagged (t : TaggedCartState) (productId : Int) : TaggedCartState :=
  let updated := t.items.filter (fun p => decide (p.1.product_id ≠ productId))
  if updated.isEmpty then
    { items := updated, restaurantId := none, restaurantName := none }
  else
    { t with items := updated }

/-- Tagged mirror of `updateQuantity`. -/
def updateQuantityTagged (t : TaggedCartState) (productId quantity : Int) : TaggedCartState :=
  if quantity ≤ 0 then
    removeFromCartTagged t productId
  else
    { t with items := t.items.map (fun p =>
        if p.1.product_id = productId then ({ p.1 with quantity := quantity }, p.2) else p) }

/-- Tagged mirror of `clearCart`. -/
def clearCartTagged (_t : TaggedCartState) : TaggedCartState :=
  { items := [], restaurantId := none, restaurantName := none }

/-- Apply one cart operation on the tagged state. -/
def applyOpTagged (t : TaggedCartState) : CartOp → TaggedCartState
  | .add item rid rname => addToCartTagged t item rid rname
  | .remove pid => removeFromCartTagged t pid
  | .update pid q => updateQuantityTagged t pid q
  | .clear => clearCartTagged t

/-- Run a sequence of cart operations on the tagged state. -/
def runOpsTagged (t : TaggedCartState) (ops : List CartOp) : TaggedCartState :=
  ops.foldl applyOpTagged t

/-- The initial tagged state: empty, unbound. -/
def initialTagged : TaggedCartState :=
  { items := [], restaurantId := none, restaurantName := none }

/-- The cart/restaurant coupling invariant of the cart provider: the
restaurant binding is null exactly when the cart is empty. -/
def cartInv (s : CartState) : Prop :=
  s.cart = [] ↔ s.restaurantId = none

/-- The tagged invariant: every entry's provenance tag is the currently
bound restaurant, and the binding is null exactly when the cart is
empty. -/
def taggedInv (t : TaggedCartState) : Prop :=
  (∀ p ∈ t.items, some p.2 = t.restaurantId) ∧
  (t.items = [] ↔ t.restaurantId = none)

/-! ### Concrete sample values used by witnesses -/

/-- A concrete cart line item. -/
def sampleItem : CartItem :=
  { product_id := 1, product_name := "Pizza", product_description := "",
    product_image := "", unit_price := 5, quantity := 1,
    selected_extras := [], selected_options := [], special_notes := "" }

/-- A concrete one-item cart bound to restaurant 7. -/
def sampleCart : CartState :=
  { cart := [sampleItem], restaurantId := some 7, restaurantName := some "Rest" }

/-- A checkout screen state with a valid address but an empty cart. -/
def emptyCheckout : CheckoutState :=
  { cartState := initialCartState, deliveryAddress := "Av. Principal 123", tip := 0 }

/-- A freshly created order: status PENDING, no transition timestamps. -/
def pendingOrder : MOrder :=
  { status := .PENDING, confirmed_at := none, preparing_at := none,
    ready_at := none, picked_up_at := none, delivered_at := none,
    cancelled_at := none, in_transit_at := none,
    cancellation_reason := none, cancellation_notes := "" }

/-- An order that has reached READY. -/
def readyOrder : MOrder := { pendingOrder with status := .READY }

/-- A concrete unavailable product. -/
def unavailableProduct : Product :=
  { id := 2, name := "Soup", description := "", price := 3, image := "",
    category := "all", is_available := false }

/-! ### Helper lemmas -/

/-- Accumulator-generalized form of the `reduce` in `getCartItemsCount`. -/
theorem foldl_count_eq_sum (l : List CartItem) (c : Int) :
    l.foldl (fun count item => count + item.quantity) c
      = c + (l.map (fun item => item.quantity)).sum := by
  induction l generalizing c with
  | nil => simp
  | cons x xs ih => simp [List.foldl_cons, ih, add_assoc]

theorem bumpQuantityAt_length (l : List CartItem) (i : Nat) (q : Int) :
    (bumpQuantityAt l i q).length = l.length := by
  induction l generalizing i with
  | nil => simp [bumpQuantityAt]
  | cons x xs ih =>
    cases i with
    | zero => simp [bumpQuantityAt]
    | succ n => simp [bumpQuantityAt, ih]

theorem bumpQuantityAt_get (l : List CartItem) (i : Nat) (q : Int)
    (j : Nat) (hj : j < l.length) (hj2 : j < (bumpQuantityAt l i q).length) :
    (bumpQuantityAt l i q).get ⟨j, hj2⟩ =
      (if j = i then
        { l.get ⟨j, hj⟩ with quantity := (l.get ⟨j, hj⟩).quantity + q }
       else l.get ⟨j, hj⟩) := by
  induction l generalizing i j with
  | nil => simp at hj
  | cons x xs ih =>
    cases i with
    | zero =>
      cases j with
      | zero => simp [bumpQuantityAt]
      | succ m => simp [bumpQuantityAt]
    | succ n =>
      cases j with
      | zero => simp [bumpQuantityAt]
      | succ m =>
        have hm : m < xs.length := by simpa using hj
        have hm2 : m < (bumpQuantityAt xs n q).length := by
          simpa [bumpQuantityAt] using hj2
        simpa [bumpQuantityAt, Nat.succ_eq_add_one] using ih n m hm hm2

/-! ### Claims -/

/-- Claim C1: the checkout computation derives the total as
subtotal + delivery fee + service fee + tax + tip − discount with the
delivery fee fixed at 2.50, service fee 0.50, tax 12% of the subtotal and
discount 0; at subtotal 10.00 and tip 0 the total is exactly 14.20. -/
theorem checkout_total_spec :
    (∀ subtotal tip : Rat,
      checkoutTotal subtotal tip
        = subtotal + deliveryFee + serviceFee + checkoutTax subtotal + tip - 0) ∧
    deliveryFee = (25 : Rat) / 10 ∧ serviceFee = (5 : Rat) / 10 ∧
    (∀ subtotal : Rat, checkoutTax subtotal = subtotal * (12 / 100)) ∧
    checkoutTotal 10 0 = (142 : Rat) / 10 := by
  refine ⟨fun subtotal tip => ?_, rfl, rfl, fun subtotal => rfl, ?_⟩
  · simp [checkoutTotal]
  · norm_num [checkoutTotal, checkoutTax, deliveryFee, serviceFee]

/-- Claim C6: the menu screen's add-to-cart handler rejects a product
whose `is_available` flag is false, leaving the cart state unchanged. -/
theorem unavailable_product_not_added (s : CartState) (p : Product)
    (restaurantId : Int) (restaurantName : String) (confirmClear : Bool)
    (h : p.is_available = false) :
    handleAddToCart s p restaurantId restaurantName confirmClear = s := by
  simp [handleAddToCart, h]

/-- Witness for C6: adding a concrete unavailable product to a concrete
cart changes nothing. -/
theorem unavailable_product_not_added_witness :
    handleAddToCart sampleCart unavailableProduct 7 "Rest" true = sampleCart :=
  unavailable_product_not_added sampleCart unavailableProduct 7 "Rest" true rfl

/-- Claim C7: `getCartItemsCount` returns the sum of the quantities of
all cart entries. -/
theorem cart_items_count_eq_sum (s : CartState) :
    getCartItemsCount s = (s.cart.map (fun item => item.quantity)).sum := by
  simpa [getCartItemsCount] using foldl_count_eq_sum s.cart 0

/-- Claim C2: `can_be_cancelled` holds iff the status is PENDING or
CONFIRMED; `cancel` fails with NotCancellable in every other status; and
cancelling a PENDING order succeeds, setting status CANCELLED and
cancelled_at to the current time. -/
theorem cancel_spec (o : MOrder) (reason : CancellationReason)
    (notes : String) (now : Nat) :
    (canBeCancelled o.status = true ↔
      (o.status = .PENDING ∨ o.status = .CONFIRMED)) ∧
    (o.status ≠ .PENDING → o.status ≠ .CONFIRMED →
      cancel o reason notes now = .error .NotCancellable) ∧
    (o.status = .PENDING →
      ∃ o2, cancel o reason notes now = .ok o2 ∧
        o2.status = .CANCELLED ∧ o2.cancelled_at = some now) := by
  refine ⟨?_, ?_, ?_⟩
  · cases h : o.status <;> simp [canBeCancelled, h]
  · intro h1 h2
    have hc : canBeCancelled o.status = false := by
      cases h : o.status <;> simp_all [canBeCancelled]
    simp [cancel, hc]
  · intro h
    refine ⟨{ stampStatus o .CANCELLED now with
                status := .CANCELLED,
                cancellation_reason := some reason,
                cancellation_notes := notes }, ?_, rfl, rfl⟩
    simp [cancel, canBeCancelled, h, transition, allowedEdge]

/-- Witness for C2: cancelling the concrete PENDING order at time 5
succeeds with status CANCELLED and cancelled_at = 5. -/
theorem cancel_spec_witness :
    ∃ o2, cancel pendingOrder .CUSTOMER_REQUEST "" 5 = .ok o2 ∧
      o2.status = .CANCELLED ∧ o2.cancelled_at = some 5 :=
  (cancel_spec pendingOrder .CUSTOMER_REQUEST "" 5).2.2 rfl

/-- Claim C3: the invariant is_online → is_available is preserved by both
driver toggles; toggling online on is rejected (no state change) when the
driver is not available; and, on API success, turning availability off
also forces the driver offline. -/
theorem driver_availability_inv (s : DriverUIState) (value apiOk : Bool) :
    (driverInv s → driverInv (handleToggleAvailability s value apiOk)) ∧
    (driverInv s → driverInv (handleToggleOnline s value apiOk)) ∧
    (s.isAvailable = false → handleToggleOnline s true apiOk = s) ∧
    (apiOk = true → (handleToggleAvailability s false apiOk).isOnline = false) := by
  obtain ⟨a, o⟩ := s
  cases a <;> cases o <;> cases value <;> cases apiOk <;>
    simp [driverInv, handleToggleAvailability, handleToggleOnline]

/-- Witness for C3: from the offline/unavailable state, turning
availability on preserves the invariant and a request to go online is
rejected. -/
theorem driver_availability_inv_witness :
    driverInv (handleToggleAvailability ⟨false, false⟩ true true) ∧
    handleToggleOnline ⟨false, false⟩ true true = ⟨false, false⟩ :=
  ⟨(driver_availability_inv ⟨false, false⟩ true true).1 (by decide),
   (driver_availability_inv ⟨false, false⟩ true true).2.2.1 rfl⟩

/-- Claim C4: `handlePlaceOrder` performs no order-creation call and
leaves the checkout state (cart included) unchanged whenever the cart is
empty, the restaurant is unset, or the trimmed delivery address is
blank. -/
theorem place_order_validation (s : CheckoutState) (apiOk : Bool)
    (h : s.cartState.cart = [] ∨ s.cartState.restaurantId = none ∨
      s.deliveryAddress.trim = "") :
    (handlePlaceOrder s apiOk).createCalled = false ∧
    (handlePlaceOrder s apiOk).after = s := by
  unfold handlePlaceOrder
  split_ifs with h1 h2 h3 h4 <;> try exact ⟨rfl, rfl⟩
  all_goals
    exfalso
    rcases h with h | h | h <;> simp_all

/-- Witness for C4: placing an order from a concrete state with a valid
address but an empty cart makes no creation call and changes nothing. -/
theorem place_order_validation_witness :
    (handlePlaceOrder emptyCheckout true).createCalled = false ∧
    (handlePlaceOrder emptyCheckout true).after = emptyCheckout :=
  place_order_validation emptyCheckout true (Or.inl rfl)

/-- Claim C5: `transition` is idempotent-safe — applied to an order
already in the target status it is a no-op success with no dispatch, and
a second application in a row again returns the unchanged order with no
dispatch and no error. -/
theorem transition_idempotent (o : MOrder) (target : OrderStatus)
    (now now2 : Nat) (h : o.status = target) :
    transition o target now = .ok (o, false) ∧
    ((transition o target now).bind fun r => transition r.1 target now2)
      = .ok (o, false) := by
  have h1 : transition o target now = .ok (o, false) := by simp [transition, h]
  have h2 : transition o target now2 = .ok (o, false) := by simp [transition, h]
  rw [h1]
  exact ⟨rfl, h2⟩

/-- Witness for C5: calling transition(READY) twice on the concrete order
already in READY yields no error and no dispatch on either call. -/
theorem transition_idempotent_witness :
    transition readyOrder .READY 3 = .ok (readyOrder, false) ∧
    ((transition readyOrder .READY 3).bind fun r => transition r.1 .READY 4)
      = .ok (readyOrder, false) :=
  transition_idempotent readyOrder .READY 3 4 rfl

/-- With the cart unbound or bound to the same restaurant, `addToCart`
takes the merge-or-append path. -/
theorem addToCart_same_restaurant (s : CartState) (item : CartItem)
    (rid : Int) (rname : String)
    (hr : s.restaurantId = none ∨ s.restaurantId = some rid) :
    addToCart s item rid rname =
      match s.cart.findIdx? (fun cartItem => sameCartEntry cartItem item) with
      | some i =>
          { cart := bumpQuantityAt s.cart i item.quantity,
            restaurantId := some rid, restaurantName := some rname }
      | none =>
          { cart := s.cart ++ [item],
            restaurantId := some rid, restaurantName := some rname } := by
  rcases hr with hr | hr <;> simp [addToCart, hr]

/-- Claim C8: under the same restaurant binding (or none), `addToCart`
increments the quantity of the first entry matching the added item's
product and customizations, changing no other entry and preserving the
cart length; with no matching entry it appends the item at the end. -/
theorem addToCart_merge_spec (s : CartState) (item : CartItem)
    (rid : Int) (rname : String)
    (hr : s.restaurantId = none ∨ s.restaurantId = some rid) :
    (∀ i, s.cart.findIdx? (fun cartItem => sameCartEntry cartItem item) = some i →
      (addToCart s item rid rname).cart.length = s.cart.length ∧
      ∀ (j : Nat) (hj : j < s.cart.length)
        (hj2 : j < (addToCart s item rid rname).cart.length),
        (addToCart s item rid rname).cart.get ⟨j, hj2⟩ =
          (if j = i then
            { s.cart.get ⟨j, hj⟩ with
                quantity := (s.cart.get ⟨j, hj⟩).quantity + item.quantity }
           else s.cart.get ⟨j, hj⟩)) ∧
    (s.cart.findIdx? (fun cartItem => sameCartEntry cartItem item) = none →
      (addToCart s item rid rname).cart = s.cart ++ [item]) := by
  have key := addToCart_same_restaurant s item rid rname hr
  constructor
  · intro i hi
    rw [key, hi]
    refine ⟨bumpQuantityAt_length s.cart i item.quantity, ?_⟩
    intro j hj hj2
    exact bumpQuantityAt_get s.cart i item.quantity j hj hj2
  · intro hn
    rw [key, hn]

/-- Witness for C8: re-adding the sample item to the sample cart (same
restaurant, matching entry at index 0) keeps the cart length at 1. -/
theorem addToCart_merge_spec_witness :
    (addToCart sampleCart sampleItem 7 "Rest").cart.length = sampleCart.cart.length :=
  (((addToCart_merge_spec sampleCart sampleItem 7 "Rest" (Or.inr rfl)).1) 0
    (by decide)).1

/-- Index-preserving description of `List.map`. -/
theorem list_get_map {α β : Type} (f : α → β) (l : List α) (j : Nat)
    (hj : j < l.length) (hj2 : j < (l.map f).length) :
    (l.map f).get ⟨j, hj2⟩ = f (l.get ⟨j, hj⟩) := by
  induction l generalizing j with
  | nil => simp at hj
  | cons x xs ih =>
    cases j with
    | zero => simp
    | succ m =>
      have hm : m < xs.length := by simpa using hj
      have hm2 : m < (xs.map f).length := by simpa using hm
      simp [ih m hm hm2]

/-- The cart after `removeFromCart` is the filtered item list, in both
the emptied and the non-emptied branch. -/
theorem removeFromCart_cart (s : CartState) (pid : Int) :
    (removeFromCart s pid).cart
      = s.cart.filter (fun item => decide (item.product_id ≠ pid)) := by
  simp only [removeFromCart]
  split <;> rfl

/-- Claim C9: `removeFromCart` removes exactly the entries carrying the
given product id (every customization variant of it) and keeps all
others; `updateQuantity` with a non-positive quantity coincides with
`removeFromCart`, and with a positive quantity it sets the quantity of
every entry with that product id and leaves the rest untouched. -/
theorem remove_update_spec (s : CartState) (pid q : Int) :
    (∀ e ∈ (removeFromCart s pid).cart, e.product_id ≠ pid) ∧
    (∀ e ∈ s.cart, e.product_id ≠ pid → e ∈ (removeFromCart s pid).cart) ∧
    (q ≤ 0 → updateQuantity s pid q = removeFromCart s pid) ∧
    (0 < q →
      (updateQuantity s pid q).cart.length = s.cart.length ∧
      ∀ (j : Nat) (hj : j < s.cart.length)
        (hj2 : j < (updateQuantity s pid q).cart.length),
        (updateQuantity s pid q).cart.get ⟨j, hj2⟩ =
          (if (s.cart.get ⟨j, hj⟩).product_id = pid
           then { s.cart.get ⟨j, hj⟩ with quantity := q }
           else s.cart.get ⟨j, hj⟩)) := by
  refine ⟨?_, ?_, ?_, ?_⟩
  · intro e he
    rw [removeFromCart_cart] at he
    exact of_decide_eq_true (List.mem_filter.mp he).2
  · intro e he hne
    rw [removeFromCart_cart]
    exact List.mem_filter.mpr ⟨he, decide_eq_true hne⟩
  · intro hq
    simp [updateQuantity, hq]
  · intro hq
    have hq2 : ¬ q ≤ 0 := by omega
    have heq : updateQuantity s pid q
        = { s with cart := s.cart.map (fun item =>
            if item.product_id = pid then { item with quantity := q } else item) } := by
      simp [updateQuantity, hq2]
    rw [heq]
    constructor
    · simp
    · intro j hj hj2
      exact list_get_map _ s.cart j hj hj2

/-- Witness for C9: on the sample cart, updating product 1 to quantity 0
is the same as removing product 1. -/
theorem remove_update_spec_witness :
    updateQuantity sampleCart 1 0 = removeFromCart sampleCart 1 :=
  (remove_update_spec sampleCart 1 0).2.2.1 (by decide)

/-- `addToCart` always leaves the new restaurant bound. -/
theorem addToCart_restaurantId (s : CartState) (item : CartItem)
    (rid : Int) (rname : String) :
    (addToCart s item rid rname).restaurantId = some rid := by
  unfold addToCart
  split
  · rfl
  · split <;> rfl

/-- `addToCart` always leaves a non-empty cart. -/
theorem addToCart_cart_ne_nil (s : CartState) (item : CartItem)
    (rid : Int) (rname : String) :
    (addToCart s item rid rname).cart ≠ [] := by
  unfold addToCart
  split
  · simp
  · split
    next i hi =>
      intro hnil
      have hlen := bumpQuantityAt_length s.cart i item.quantity
      simp only [CartState.cart] at hnil
      rw [hnil] at hlen
      have hcart : s.cart = [] := List.length_eq_zero.mp hlen.symm
      rw [hcart] at hi
      simp [List.findIdx?] at hi
    next hn => simp

/-- `removeFromCart` preserves the cart/restaurant coupling. -/
theorem removeFromCart_inv (s : CartState) (pid : Int) (h : cartInv s) :
    cartInv (removeFromCart s pid) := by
  unfold cartInv
  simp only [removeFromCart]
  split
  next he =>
    refine ⟨fun _ => rfl, fun _ => ?_⟩
    simpa [List.isEmpty_iff] using he
  next he =>
    constructor
    · intro hnil
      have hfil : List.filter (fun item => decide (item.product_id ≠ pid)) s.cart
          = [] := hnil
      exact absurd (by rw [hfil]; rfl) he
    · intro hnone
      have hcart : s.cart = [] := h.mpr hnone
      exact absurd (by rw [hcart]; rfl) he

/-- `updateQuantity` preserves the cart/restaurant coupling. -/
theorem updateQuantity_inv (s : CartState) (pid q : Int) (h : cartInv s) :
    cartInv (updateQuantity s pid q) := by
  unfold updateQuantity
  split
  · exact removeFromCart_inv s pid h
  · unfold cartInv at h ⊢
    simpa [List.map_eq_nil_iff] using h

theorem isEmpty_map {α β : Type} (f : α → β) (l : List α) :
    (l.map f).isEmpty = l.isEmpty := by
  cases l <;> rfl

theorem bumpTagged_map_fst (l : List (CartItem × Int)) (i : Nat) (q : Int) :
    (bumpQuantityAtTagged l i q).map Prod.fst
      = bumpQuantityAt (l.map Prod.fst) i q := by
  induction l generalizing i with
  | nil => simp [bumpQuantityAtTagged, bumpQuantityAt]
  | cons x xs ih =>
    cases i with
    | zero => simp [bumpQuantityAtTagged, bumpQuantityAt]
    | succ n => simp [bumpQuantityAtTagged, bumpQuantityAt, ih]

theorem bumpTagged_length (l : List (CartItem × Int)) (i : Nat) (q : Int) :
    (bumpQuantityAtTagged l i q).length = l.length := by
  induction l generalizing i with
  | nil => simp [bumpQuantityAtTagged]
  | cons x xs ih =>
    cases i with
    | zero => simp [bumpQuantityAtTagged]
    | succ n => simp [bumpQuantityAtTagged, ih]

theorem bumpTagged_tags (l : List (CartItem × Int)) (i : Nat) (q : Int) :
    ∀ p ∈ bumpQuantityAtTagged l i q, ∃ p2 ∈ l, p.2 = p2.2 := by
  induction l generalizing i with
  | nil => simp [bumpQuantityAtTagged]
  | cons x xs ih =>
    cases i with
    | zero =>
      intro p hp
      rcases List.mem_cons.mp hp with h | h
      · exact ⟨x, List.mem_cons_self x xs, by rw [h]⟩
      · exact ⟨p, List.mem_cons_of_mem x h, rfl⟩
    | succ n =>
      intro p hp
      rcases List.mem_cons.mp hp with h | h
      · exact ⟨x, List.mem_cons_self x xs, by rw [h]⟩
      · obtain ⟨p2, hp2, he⟩ := ih n p h
        exact ⟨p2, List.mem_cons_of_mem x hp2, he⟩

theorem filter_map_fst (l : List (CartItem × Int)) (pid : Int) :
    (l.filter (fun p => decide (p.1.product_id ≠ pid))).map Prod.fst
      = (l.map Prod.fst).filter (fun item => decide (item.product_id ≠ pid)) := by
  induction l with
  | nil => simp
  | cons x xs ih =>
    by_cases h : x.1.product_id = pid
    · simpa [List.filter_cons, h] using ih
    · simpa [List.filter_cons, h] using ih

theorem update_map_fst (l : List (CartItem × Int)) (pid q : Int) :
    (l.map (fun p =>
        if p.1.product_id = pid then ({ p.1 with quantity := q }, p.2) else p)).map Prod.fst
      = (l.map Prod.fst).map (fun item =>
          if item.product_id = pid then { item with quantity := q } else item) := by
  induction l with
  | nil => rfl
  | cons x xs ih =>
    by_cases h : x.1.product_id = pid <;> simp [h, ih]

theorem erase_addToCart (t : TaggedCartState) (item : CartItem)
    (rid : Int) (rname : String) :
    eraseTags (addToCartTagged t item rid rname)
      = addToCart (eraseTags t) item rid rname := by
  unfold addToCartTagged addToCart
  simp only [eraseTags]
  by_cases hc : (t.restaurantId.isSome && decide (t.restaurantId ≠ some rid)) = true
  · rw [if_pos hc, if_pos hc]
    simp [eraseTags]
  · rw [if_neg hc, if_neg hc]
    cases hidx : (t.items.map Prod.fst).findIdx?
        (fun cartItem => sameCartEntry cartItem item) with
    | some i => simp [hidx, eraseTags, bumpTagged_map_fst]
    | none => simp [hidx, eraseTags]

theorem erase_removeFromCart (t : TaggedCartState) (pid : Int) :
    eraseTags (removeFromCartTagged t pid)
      = removeFromCart (eraseTags t) pid := by
  have hf := filter_map_fst t.items pid
  unfold removeFromCartTagged removeFromCart
  simp only [eraseTags]
  by_cases h : (t.items.filter (fun p => decide (p.1.product_id ≠ pid))).isEmpty = true
  · have h2 : ((t.items.map Prod.fst).filter
        (fun item => decide (item.product_id ≠ pid))).isEmpty = true := by
      rw [← hf, isEmpty_map]
      exact h
    rw [if_pos h, if_pos h2]
    simp only [eraseTags]
    congr 1
  · have h2 : ¬ ((t.items.map Prod.fst).filter
        (fun item => decide (item.product_id ≠ pid))).isEmpty = true := by
      rw [← hf, isEmpty_map]
      exact h
    rw [if_neg h, if_neg h2]
    simp only [eraseTags]
    congr 1

theorem erase_updateQuantity (t : TaggedCartState) (pid q : Int) :
    eraseTags (updateQuantityTagged t pid q)
      = updateQuantity (eraseTags t) pid q := by
  by_cases h : q ≤ 0
  · simp only [updateQuantityTagged, updateQuantity, if_pos h]
    exact erase_removeFromCart t pid
  · simp only [updateQuantityTagged, updateQuantity, if_neg h]
    simp only [eraseTags]
    congr 1
    exact update_map_fst t.items pid q

theorem erase_applyOp (t : TaggedCartState) (op : CartOp) :
    eraseTags (applyOpTagged t op) = applyOp (eraseTags t) op := by
  cases op with
  | add item rid rname => exact erase_addToCart t item rid rname
  | remove pid => exact erase_removeFromCart t pid
  | update pid q => exact erase_updateQuantity t pid q
  | clear => rfl

theorem erase_runOps (ops : List CartOp) (t : TaggedCartState) :
    eraseTags (runOpsTagged t ops) = runOps (eraseTags t) ops := by
  induction ops generalizing t with
  | nil => rfl
  | cons op ops ih =>
    simp only [runOpsTagged, runOps, List.foldl_cons]
    rw [← erase_applyOp]
    exact ih (applyOpTagged t op)

theorem addToCartTagged_inv (t : TaggedCartState) (item : CartItem)
    (rid : Int) (rname : String) (h : taggedInv t) :
    taggedInv (addToCartTagged t item rid rname) := by
  unfold taggedInv
  by_cases hc : (t.restaurantId.isSome && decide (t.restaurantId ≠ some rid)) = true
  · simp only [addToCartTagged, if_pos hc]
    constructor
    · intro p hp
      have hp2 : p = (item, rid) := by simpa using hp
      rw [hp2]
    · simp
  · have hrid : t.restaurantId = none ∨ t.restaurantId = some rid := by
      cases ht : t.restaurantId with
      | none => exact Or.inl rfl
      | some r =>
        right
        rw [ht] at hc
        simp only [Option.isSome_some, Bool.true_and, decide_eq_true_eq,
          ne_eq, Option.some.injEq, Decidable.not_not] at hc
        rw [hc]
    simp only [addToCartTagged, if_neg hc]
    cases hidx : (t.items.map Prod.fst).findIdx?
        (fun cartItem => sameCartEntry cartItem item) with
    | some i =>
      have hne : t.items ≠ [] := by
        intro hnil
        rw [hnil] at hidx
        simp [List.findIdx?] at hidx
      have hsome : t.restaurantId = some rid := by
        rcases hrid with hr | hr
        · exact absurd (h.2.mpr hr) hne
        · exact hr
      simp only [hidx]
      constructor
      · intro p hp
        obtain ⟨p2, hp2, he⟩ := bumpTagged_tags t.items i item.quantity p hp
        have ht2 := h.1 p2 hp2
        rw [hsome] at ht2
        rw [he]
        exact ht2
      · constructor
        · intro hnil
          have := bumpTagged_length t.items i item.quantity
          rw [hnil] at this
          exact absurd (List.length_eq_zero.mp this.symm) hne
        · intro hnone
          exact absurd hnone (by simp)
    | none =>
      simp only [hidx]
      constructor
      · intro p hp
        rcases List.mem_append.mp hp with h1 | h1
        · rcases hrid with hr | hr
          · rw [h.2.mpr hr] at h1
            exact absurd h1 (List.not_mem_nil p)
          · have := h.1 p h1
            rw [hr] at this
            exact this
        · have hp2 : p = (item, rid) := by simpa using h1
          rw [hp2]
      · constructor
        · intro hnil
          exact absurd hnil (by simp)
        · intro hnone
          exact absurd hnone (by simp)

theorem removeFromCartTagged_inv (t : TaggedCartState) (pid : Int)
    (h : taggedInv t) : taggedInv (removeFromCartTagged t pid) := by
  unfold taggedInv
  simp only [removeFromCartTagged]
  split
  next he =>
    constructor
    · intro p hp
      have hnil : t.items.filter (fun p => decide (p.1.product_id ≠ pid)) = [] := by
        simpa [List.isEmpty_iff] using he
      rw [hnil] at hp
      exact absurd hp (List.not_mem_nil p)
    · exact ⟨fun _ => rfl, fun _ => by simpa [List.isEmpty_iff] using he⟩
  next he =>
    constructor
    · intro p hp
      exact h.1 p (List.mem_filter.mp hp).1
    · constructor
      · intro hnil
        have hfil : t.items.filter (fun p => decide (p.1.product_id ≠ pid)) = [] := hnil
        exact absurd (by rw [hfil]; rfl) he
      · intro hnone
        have hcart : t.items = [] := h.2.mpr hnone
        exact absurd (by rw [hcart]; rfl) he

theorem updateQuantityTagged_inv (t : TaggedCartState) (pid q : Int)
    (h : taggedInv t) : taggedInv (updateQuantityTagged t pid q) := by
  simp only [updateQuantityTagged]
  split
  · exact removeFromCartTagged_inv t pid h
  · unfold taggedInv
    constructor
    · intro p hp
      obtain ⟨p2, hp2, he⟩ := List.mem_map.mp hp
      have ht2 := h.1 p2 hp2
      by_cases hcase : p2.1.product_id = pid
      · rw [← he]
        simpa [hcase] using ht2
      · rw [← he]
        simpa [hcase] using ht2
    · simpa [List.map_eq_nil_iff] using h.2

theorem applyOpTagged_inv (t : TaggedCartState) (op : CartOp)
    (h : taggedInv t) : taggedInv (applyOpTagged t op) := by
  cases op with
  | add item rid rname => exact addToCartTagged_inv t item rid rname h
  | remove pid => exact removeFromCartTagged_inv t pid h
  | update pid q => exact updateQuantityTagged_inv t pid q h
  | clear => exact ⟨fun p hp => absurd hp (List.not_mem_nil p), ⟨fun _ => rfl, fun _ => rfl⟩⟩

theorem runOpsTagged_inv (ops : List CartOp) (t : TaggedCartState)
    (h : taggedInv t) : taggedInv (runOpsTagged t ops) := by
  induction ops generalizing t with
  | nil => exact h
  | cons op ops ih =>
    exact ih (applyOpTagged t op) (applyOpTagged_inv t op h)

/-- Claim C10: `addToCart` against a differently-bound cart replaces the
whole cart by the one new item and rebinds the restaurant; when
`removeFromCart` empties the cart the binding is reset to null;
`clearCart` empties and unbinds; all four cart operations preserve the
invariant that the restaurant binding is null exactly when the cart is
empty (which holds initially); and the tagged mirror of the operations
(each inserted entry tagged with the restaurant id passed at insertion)
erases to the real operations and keeps every item's provenance tag
equal to the currently bound restaurant. -/
theorem cart_restaurant_binding (s : CartState) (item : CartItem)
    (rid : Int) (rname : String) (pid q : Int) (r : Int) :
    (s.restaurantId = some r → r ≠ rid →
      addToCart s item rid rname =
        { cart := [item], restaurantId := some rid, restaurantName := some rname }) ∧
    ((removeFromCart s pid).cart = [] →
      (removeFromCart s pid).restaurantId = none ∧
      (removeFromCart s pid).restaurantName = none) ∧
    clearCart s = { cart := [], restaurantId := none, restaurantName := none } ∧
    cartInv initialCartState ∧
    (cartInv s →
      cartInv (addToCart s item rid rname) ∧
      cartInv (removeFromCart s pid) ∧
      cartInv (updateQuantity s pid q) ∧
      cartInv (clearCart s)) ∧
    (∀ ops : List CartOp,
      eraseTags (runOpsTagged initialTagged ops) = runOps initialCartState ops ∧
      taggedInv (runOpsTagged initialTagged ops) ∧
      ∀ rr : Int, (runOps initialCartState ops).restaurantId = some rr →
        ∀ p ∈ (runOpsTagged initialTagged ops).items, p.2 = rr) := by
  refine ⟨?_, ?_, rfl, by simp [cartInv, initialCartState], ?_, ?_⟩
  · intro h1 h2
    simp [addToCart, h1, h2]
  · simp only [removeFromCart]
    split
    next => exact fun _ => ⟨rfl, rfl⟩
    next he =>
      intro hnil
      have hfil : List.filter (fun item => decide (item.product_id ≠ pid)) s.cart
          = [] := hnil
      exact absurd (by rw [hfil]; rfl) he
  · intro hinv
    refine ⟨?_, removeFromCart_inv s pid hinv, updateQuantity_inv s pid q hinv, ?_⟩
    · constructor
      · intro hnil
        exact absurd hnil (addToCart_cart_ne_nil s item rid rname)
      · intro hnone
        rw [addToCart_restaurantId s item rid rname] at hnone
        exact absurd hnone (by simp)
    · simp [cartInv, clearCart]
  · intro ops
    have hinv : taggedInv (runOpsTagged initialTagged ops) :=
      runOpsTagged_inv ops initialTagged
        ⟨fun p2 hp2 => absurd hp2 (List.not_mem_nil p2), ⟨fun _ => rfl, fun _ => rfl⟩⟩
    refine ⟨erase_runOps ops initialTagged, hinv, ?_⟩
    intro rr hr p hp
    have htag := hinv.1 p hp
    have he : eraseTags (runOpsTagged initialTagged ops) = runOps initialCartState ops :=
      erase_runOps ops initialTagged
    have hrid : (runOpsTagged initialTagged ops).restaurantId = some rr := by
      rw [← hr]
      rw [← he]
      rfl
    rw [hrid] at htag
    exact Option.some.inj htag

/-- Witness for C10: adding the sample item to the sample cart (bound to
restaurant 7) under restaurant 9 replaces the cart and rebinds it. -/
theorem cart_restaurant_binding_witness :
    addToCart sampleCart sampleItem 9 "Other" =
      { cart := [sampleItem], restaurantId := some 9, restaurantName := some "Other" } :=
  (cart_restaurant_binding sampleCart sampleItem 9 "Other" 1 2 7).1 rfl (by decide)

end QuickGo
